import Mathlib

/-!
Shallow embedding of `scripts/run.py`, an automated judge that compiles a
submitted source file (when the language requires it), executes it under a
wall-clock timeout, and compares the captured output against a reference
output, emitting a single JSON verdict.

External effects (process exit codes, spawn success, poll observations of the
child, the lines written to the capture file) are passed in explicitly through
an `Env` record; the control flow, verdict construction, comparison algorithm,
language registry and argument handling are translated line by line from the
Python source.
-/

namespace Dredd

/-! ### Python string primitives used by the script -/

/-- The characters Python 2's `str.split()` / `str.strip()` treat as
whitespace: space, tab, newline, vertical tab, form feed, carriage return. -/
def isPySpace (c : Char) : Bool :=
  c = ' ' || c = '\t' || c = '\n' || c = Char.ofNat 11 || c = Char.ofNat 12 || c = '\r'

/-- ASCII lower-casing, as Python 2's `str.lower()` performs on byte strings. -/
def pyLower (c : Char) : Char :=
  if 'A' ≤ c ∧ c ≤ 'Z' then Char.ofNat (c.toNat + 32) else c

/-- `''.join(line.strip().split()).lower()` from `run.py` line 199/200:
remove every whitespace character and lower-case the rest. -/
def normalize (s : String) : String :=
  String.mk ((s.toList.filter (fun c => !isPySpace c)).map pyLower)

/-- `str.lower()` applied to a whole string. -/
def strLower (s : String) : String :=
  String.mk (s.toList.map pyLower)

/-- Index of the last occurrence of `c`, or `none` (Python `str.rfind`). -/
def lastIndexOf (c : Char) : List Char → Option Nat
  | [] => none
  | a :: rest =>
    match lastIndexOf c rest with
    | some i => some (i + 1)
    | none => if a = c then some 0 else none

/-- `os.path.splitext`: split off the extension at the last dot of the last
path component, unless every character of the component before that dot is
itself a dot (hidden files such as `.bashrc` have no extension). -/
def splitext (p : String) : String × String :=
  let l := p.toList
  let sep : Int := match lastIndexOf '/' l with | some i => (i : Int) | none => -1
  let dot : Int := match lastIndexOf '.' l with | some i => (i : Int) | none => -1
  if sep < dot ∧ ((l.drop (sep + 1).toNat).take (dot.toNat - (sep + 1).toNat)).any (fun c => c ≠ '.') then
    (String.mk (l.take dot.toNat), String.mk (l.drop dot.toNat))
  else
    (p, "")

/-- `os.path.basename`: everything after the last `/`. -/
def basename (p : String) : String :=
  let l := p.toList
  match lastIndexOf '/' l with
  | some i => String.mk (l.drop (i + 1))
  | none => p

/-- Leftmost, non-overlapping replacement of `pat` by `rep`, fuelled by the
length of the subject so that recursion is structural.  Used to model the
`{source}` / `{executable}` placeholder substitution of `str.format`. -/
def replaceFuel (pat rep : List Char) : Nat → List Char → List Char
  | 0, s => s
  | _ + 1, [] => []
  | fuel + 1, c :: rest =>
    if pat.isPrefixOf (c :: rest) then
      rep ++ replaceFuel pat rep fuel ((c :: rest).drop pat.length)
    else
      c :: replaceFuel pat rep fuel rest

/-- `template.format(source=source, executable=executable)` for the command
templates of the registry, whose only placeholders are `{source}` and
`{executable}`. -/
def formatCmd (template source executable : String) : String :=
  let s1 := replaceFuel "{source}".toList source.toList template.toList.length template.toList
  String.mk (replaceFuel "{executable}".toList executable.toList s1.length s1)

/-- Python `int(s)`: optional surrounding whitespace, optional sign, digits. -/
def pyInt (s : String) : Option Int :=
  let t := (((s.toList.dropWhile isPySpace).reverse.dropWhile isPySpace).reverse)
  let signDigits : Int × List Char :=
    match t with
    | '-' :: rest => (-1, rest)
    | '+' :: rest => (1, rest)
    | _ => (1, t)
  if signDigits.2 ≠ [] ∧ signDigits.2.all (fun c => '0' ≤ c ∧ c ≤ '9') then
    some (signDigits.1 * signDigits.2.foldl (fun acc c => acc * 10 + ((c.toNat : Int) - ('0'.toNat : Int))) 0)
  else
    none

/-! ### Verdict constants (`run.py` lines 16-24) -/

def EXIT_SUCCESS : Int := 0
def EXIT_FAILURE : Int := 1

def COMPILER_ERROR : Nat := 1
def TIMELIMIT_EXCEEDED : Nat := 2
def EXECUTION_ERROR : Nat := 3
def WRONG_ANSWER : Nat := 4
def WRONG_FORMATTING : Nat := 5
def PROGRAM_SUCCESS : Nat := 6

/-- The JSON object `{'result': ..., 'score': ...}` written by `return_result`
together with the status passed to `sys.exit`. -/
structure Verdict where
  result : String
  status : Int
  score : Nat
deriving DecidableEq

/-! ### Language registry (`run.py` lines 44-103) -/

structure Language where
  name : String
  compile : String
  execute : String
  extensions : List String
deriving DecidableEq

def LANGUAGES : List Language := [
  ⟨"Bash", "", "bash {source}", [".sh"]⟩,
  ⟨"C", "gcc -std=gnu99 -o {executable} {source} -lm", "./{executable}", [".c"]⟩,
  ⟨"C++", "g++ -std=gnu++11 -o {executable} {source} -lm", "./{executable}", [".cc", ".cpp"]⟩,
  ⟨"Go", "go build {source}", "go run {source}", [".go"]⟩,
  ⟨"Java", "javac {source}", "java -cp . {executable}", [".java"]⟩,
  ⟨"JavaScript", "", "nodejs {source}", [".js"]⟩,
  ⟨"Perl", "", "perl {source}", [".pl"]⟩,
  ⟨"Python", "", "python2.7 {source}", [".py"]⟩,
  ⟨"Python 3", "", "python3.5 {source}", [".py3"]⟩,
  ⟨"Ruby", "", "ruby {source}", [".rb"]⟩,
  ⟨"Swift", "/opt/swift-3.1.1/bin/swiftc {source}", "./{executable}", [".swift"]⟩]

/-- `language_name and language_name.lower() == language.name.lower()`:
an absent or empty explicit name never matches. -/
def nameMatches (language_name : Option String) (l : Language) : Bool :=
  match language_name with
  | none => false
  | some n => n ≠ "" && strLower n == strLower l.name

/-- The loop condition `matches_extension or matches_language`. -/
def matchesEntry (extension : String) (language_name : Option String) (l : Language) : Bool :=
  l.extensions.contains extension || nameMatches language_name l

/-- The `for language in LANGUAGES` loop of `get_language_from_source`. -/
def findLanguage (extension : String) (language_name : Option String) : List Language → Option Language
  | [] => none
  | l :: rest =>
    let matches_extension := l.extensions.contains extension
    let matches_language := nameMatches language_name l
    if matches_extension || matches_language then some l
    else findLanguage extension language_name rest

/-- `get_language_from_source` (`run.py` lines 105-115); `none` stands for the
`NotImplementedError` (`UnsupportedLanguage`) exit. -/
def get_language_from_source (source : String) (language_name : Option String) : Option Language :=
  findLanguage (splitext source).2 language_name LANGUAGES

/-! ### Process supervisor (`run.py` lines 167-185) -/

/-- Whether the spawned process group still exists. -/
inductive GroupState
  | alive
  | dead
deriving DecidableEq

/-- `os.killpg(pgid, SIGTERM)`: kills a live group, raises `OSError` for a
group that no longer exists. -/
def killpg : GroupState → Except Unit GroupState
  | .alive => .ok .dead
  | .dead => .error ()

/-- The guarded cleanup `try: os.killpg(...) except OSError: pass` in the
`finally` block: a failed signal is swallowed and changes nothing. -/
def terminateGroup (g : GroupState) : GroupState :=
  match killpg g with
  | .ok g2 => g2
  | .error _ => g

/-- The polling loop, in poll-time units: at each poll the supervisor first
asks whether the child has exited (`process.poll()`), then whether the
deadline has been reached, and otherwise sleeps 250ms and polls again.
`r` is the number of polls remaining before the deadline check fires and `k`
is the index of the current poll; the result is the `toolong` flag. -/
def pollLoop (exited : Nat → Bool) : Nat → Nat → Bool
  | 0, k => if exited k then false else true
  | r + 1, k => if exited k then false else pollLoop exited r (k + 1)

/-- `toolong` as computed by the whole loop: the deadline is `timeout`
seconds, i.e. `4 * timeout` polls of 250ms starting at poll 0. -/
def superviseTimedOut (exited : Nat → Bool) (deadline : Nat) : Bool :=
  pollLoop exited deadline 0

/-- Wall-clock timeout in poll units. -/
def deadlinePolls (timeout : Int) : Nat :=
  (4 * timeout).toNat

/-- The supervised wait plus its `finally` cleanup: the `toolong` flag and
the state of the process group after the unconditional group signal. -/
def supervise (exited : Nat → Bool) (deadline : Nat) (g : GroupState) : Bool × GroupState :=
  (superviseTimedOut exited deadline, terminateGroup g)

/-! ### The verdict comparator (`run.py` lines 193-209) -/

inductive CompareResult
  | ExactMatch
  | FormatMismatch
  | WrongAnswer
deriving DecidableEq

/-- The `izip_longest` comparison loop.  The flag is `has_format_error`:
exhaustion of either side is an immediate Wrong Answer, a byte-different but
normalized-equal pair sets the flag and continues, a normalized-different
pair is an immediate Wrong Answer, and at the joint end the flag selects
between Output Format Error and Success. -/
def compareLines : List String → List String → Bool → CompareResult
  | [], [], flag => if flag then .FormatMismatch else .ExactMatch
  | [], _ :: _, _ => .WrongAnswer
  | _ :: _, [], _ => .WrongAnswer
  | a :: as, b :: bs, flag =>
    if a = b then compareLines as bs flag
    else if normalize a = normalize b then compareLines as bs true
    else .WrongAnswer

/-- The comparator on the captured and reference line sequences, starting
with `has_format_error = False`. -/
def compareOutput (captured reference : List String) : CompareResult :=
  compareLines captured reference false

/-! ### The orchestrator (`run.py` lines 123-209) -/

/-- The externally determined effects of one invocation: the exit status the
compile command would report, whether `Popen` succeeds, at which poll the
child is observed to have exited, the child's own exit code, and the lines
the compile and execute phases append to the `stdout` capture file. -/
structure Env where
  compileExit : Int
  compilerOutput : List String
  spawnOk : Bool
  exited : Nat → Bool
  returncode : Int
  programOutput : List String
  reference : List String

/-- Observable process-spawning record of a run: the commands handed to
`subprocess.check_call` during the compile phase, the commands handed to
`subprocess.Popen` during the execute phase, and whether the group-termination
signal of the `finally` block was reached. -/
structure Trace where
  compileSpawns : List String
  executeSpawns : List String
  killSent : Bool
deriving DecidableEq

/-- The judging core of `run` (`run.py` lines 145-209), after argument
parsing: resolve the language, run the compile command, spawn and supervise
the execute command, compare outputs; the first classification reached is
returned together with the spawn trace and the final process-group state.
The `stdout` capture file is opened with mode `w` for the compile phase and
mode `a` for the execute phase, so the comparator reads the compiler's merged
stdout/stderr followed by the program's stdout. -/
def runCore (source : String) (timeout : Int) (env : Env) (g : GroupState) :
    Verdict × Trace × GroupState :=
  let executable := (splitext (basename source)).1
  match get_language_from_source source none with
  | none =>
    (⟨"Unable to determine language for " ++ source, EXIT_FAILURE, COMPILER_ERROR⟩,
      ⟨[], [], false⟩, g)
  | some language =>
    let compileCmd := formatCmd language.compile source executable
    if env.compileExit ≠ 0 then
      (⟨"Compilation Error", EXIT_FAILURE, COMPILER_ERROR⟩, ⟨[compileCmd], [], false⟩, g)
    else
      let executeCmd := formatCmd language.execute source executable
      if env.spawnOk = false then
        (⟨"Execution Error", EXIT_FAILURE, EXECUTION_ERROR⟩,
          ⟨[compileCmd], [executeCmd], false⟩, g)
      else
        let sup := supervise env.exited (deadlinePolls timeout) g
        let trace : Trace := ⟨[compileCmd], [executeCmd], true⟩
        if sup.1 then
          (⟨"Time Limit Exceeded", EXIT_FAILURE, TIMELIMIT_EXCEEDED⟩, trace, sup.2)
        else if env.returncode ≠ 0 then
          (⟨"Execution Error", env.returncode, EXECUTION_ERROR⟩, trace, sup.2)
        else
          match compareOutput (env.compilerOutput ++ env.programOutput) env.reference with
          | .WrongAnswer => (⟨"Wrong Answer", EXIT_FAILURE, WRONG_ANSWER⟩, trace, sup.2)
          | .FormatMismatch =>
            (⟨"Output Format Error", EXIT_FAILURE, WRONG_FORMATTING⟩, trace, sup.2)
          | .ExactMatch => (⟨"Success", EXIT_SUCCESS, PROGRAM_SUCCESS⟩, trace, sup.2)

/-- The same control flow with `return_result` rendered faithfully as an
early exit: `json.dump` followed by `sys.exit` never returns, so the run is
a computation that terminates by raising its unique verdict; a `.ok` value
would mean the program fell through every classification. -/
def runCoreE (source : String) (timeout : Int) (env : Env) : Except Verdict Unit :=
  let executable := (splitext (basename source)).1
  match get_language_from_source source none with
  | none =>
    .error ⟨"Unable to determine language for " ++ source, EXIT_FAILURE, COMPILER_ERROR⟩
  | some language =>
    let _compileCmd := formatCmd language.compile source executable
    if env.compileExit ≠ 0 then
      .error ⟨"Compilation Error", EXIT_FAILURE, COMPILER_ERROR⟩
    else
      let _executeCmd := formatCmd language.execute source executable
      if env.spawnOk = false then
        .error ⟨"Execution Error", EXIT_FAILURE, EXECUTION_ERROR⟩
      else if superviseTimedOut env.exited (deadlinePolls timeout) then
        .error ⟨"Time Limit Exceeded", EXIT_FAILURE, TIMELIMIT_EXCEEDED⟩
      else if env.returncode ≠ 0 then
        .error ⟨"Execution Error", env.returncode, EXECUTION_ERROR⟩
      else
        match compareOutput (env.compilerOutput ++ env.programOutput) env.reference with
        | .WrongAnswer => .error ⟨"Wrong Answer", EXIT_FAILURE, WRONG_ANSWER⟩
        | .FormatMismatch => .error ⟨"Output Format Error", EXIT_FAILURE, WRONG_FORMATTING⟩
        | .ExactMatch => .error ⟨"Success", EXIT_SUCCESS, PROGRAM_SUCCESS⟩

/-! ### Argument handling (`run.py` lines 123-144 and the `getopt` module) -/

/-- `getopt.short_has_arg`: look `opt` up in the short-option string; `true`
means the option takes an argument (a `:` follows it); an unknown option
raises `GetoptError`. -/
def short_has_arg (opt : Char) : List Char → Except String Bool
  | [] => .error "option not recognized"
  | c :: rest =>
    if opt = c ∧ c ≠ ':' then .ok (rest.head? = some ':')
    else short_has_arg opt rest

/-- `getopt.do_shorts` on one `-xyz` cluster: returns the accumulated
`(option, value)` pairs and whether the following argument was consumed as an
option value. -/
def do_shorts (opts : List (String × String)) (optstring shortopts : List Char)
    (args : List String) : Except String (List (String × String) × Bool) :=
  match optstring with
  | [] => .ok (opts, false)
  | opt :: rest =>
    match short_has_arg opt shortopts with
    | .error e => .error e
    | .ok true =>
      match rest with
      | [] =>
        match args with
        | [] => .error "option requires argument"
        | a :: _ => .ok (opts ++ [(String.mk ['-', opt], a)], true)
      | _ :: _ => .ok (opts ++ [(String.mk ['-', opt], String.mk rest)], false)
    | .ok false => do_shorts (opts ++ [(String.mk ['-', opt], "")]) rest shortopts args

/-- The scanning loop of `getopt.getopt`, fuelled by the argument count so
that the recursion is structural (each step consumes the leading argument). -/
def getoptFuel (shortopts : List Char) :
    Nat → List (String × String) → List String → Except String (List (String × String) × List String)
  | 0, opts, args => .ok (opts, args)
  | fuel + 1, opts, args =>
    match args with
    | [] => .ok (opts, [])
    | a :: rest =>
      match a.toList with
      | '-' :: [] => .ok (opts, a :: rest)
      | '-' :: '-' :: [] => .ok (opts, rest)
      | '-' :: c :: cs =>
        match do_shorts opts (c :: cs) shortopts rest with
        | .error e => .error e
        | .ok (opts2, true) => getoptFuel shortopts fuel opts2 rest.tail
        | .ok (opts2, false) => getoptFuel shortopts fuel opts2 rest
      | _ => .ok (opts, a :: rest)

/-- `getopt.getopt(args, shortopts)`. -/
def getopt (args : List String) (shortopts : String) :
    Except String (List (String × String) × List String) :=
  getoptFuel shortopts.toList (args.length + 1) [] args

/-- Outcome of the option-processing `for` loop of `run`. -/
inductive OptionsResult
  | ok (timeout : Int)
  | usage (code : Int)
  | valueError
deriving DecidableEq

/-- The `for option, value in options` loop: `-v` adjusts logging, `-t`
re-parses the timeout (an unparsable value raises `ValueError`), anything
else calls `usage(1)`. -/
def applyOptions : List (String × String) → Int → OptionsResult
  | [], t => .ok t
  | (opt, value) :: rest, t =>
    if opt = "-v" then applyOptions rest t
    else if opt = "-t" then
      match pyInt value with
      | some n => applyOptions rest n
      | none => .valueError
    else .usage 1

/-- How an invocation of the script ends: the usage text plus `sys.exit`, an
uncaught exception traceback, or a judged run emitting its verdict. -/
inductive MainOutcome
  | usageExit (code : Int)
  | crash (exn : String)
  | judged (v : Verdict)
deriving DecidableEq

/-- The whole of `run(argv)` (`run.py` lines 123-209).  On `GetoptError` the
code only logs the error, after which the `for option, value in options` line
raises `NameError` because `options` was never bound; with zero positional
arguments `usage(1)` runs; with one or two positional arguments the index
expressions `arguments[1]` / `arguments[2]` raise `IndexError`.  The second
component records whether the language resolver was ever invoked. -/
def run (argv : List String) (env : Env) (g : GroupState) : MainOutcome × Bool :=
  match getopt (argv.drop 1) "t:v" with
  | .error _ => (.crash "NameError", false)
  | .ok (options, arguments) =>
    match applyOptions options 30 with
    | .usage code => (.usageExit code, false)
    | .valueError => (.crash "ValueError", false)
    | .ok timeout =>
      match arguments with
      | [] => (.usageExit 1, false)
      | [_] => (.crash "IndexError", false)
      | [_, _] => (.crash "IndexError", false)
      | source :: _ :: _ :: _ => (.judged (runCore source timeout env g).1, true)

/-- A quiescent environment: compilation succeeds silently, the spawn
succeeds, the child is already seen exited at the first poll with exit code
0, and all files are empty. -/
def envBase : Env :=
  ⟨0, [], true, fun _ => true, 0, [], []⟩

/-! ### Characterization of the comparator -/

theorem compareLines_exact_iff (out : List String) :
    ∀ (ref : List String) (f : Bool),
      compareLines out ref f = CompareResult.ExactMatch ↔ (out = ref ∧ f = false) := by
  induction out with
  | nil =>
    intro ref f
    cases ref with
    | nil => cases f <;> simp [compareLines]
    | cons b bs => simp [compareLines]
  | cons a as ih =>
    intro ref f
    cases ref with
    | nil => simp [compareLines]
    | cons b bs =>
      by_cases hab : a = b
      · subst hab
        simp [compareLines, ih]
      · by_cases hn : normalize a = normalize b
        · simp [compareLines, hab, hn, ih]
        · simp [compareLines, hab, hn]

theorem compareLines_wrong_iff (out : List String) :
    ∀ (ref : List String) (f : Bool),
      compareLines out ref f = CompareResult.WrongAnswer ↔
        (out.length ≠ ref.length ∨ ∃ p ∈ out.zip ref, normalize p.1 ≠ normalize p.2) := by
  induction out with
  | nil =>
    intro ref f
    cases ref with
    | nil => cases f <;> simp [compareLines]
    | cons b bs => simp [compareLines]
  | cons a as ih =>
    intro ref f
    cases ref with
    | nil => simp [compareLines]
    | cons b bs =>
      by_cases hab : a = b
      · subst hab
        simp [compareLines, ih]
      · by_cases hn : normalize a = normalize b
        · simp [compareLines, hab, hn, ih]
        · simp [compareLines, hab, hn]

theorem compareLines_format_iff (out : List String) :
    ∀ (ref : List String) (f : Bool),
      compareLines out ref f = CompareResult.FormatMismatch ↔
        (out.length = ref.length ∧ (∀ p ∈ out.zip ref, normalize p.1 = normalize p.2) ∧
          (f = true ∨ out ≠ ref)) := by
  induction out with
  | nil =>
    intro ref f
    cases ref with
    | nil => cases f <;> simp [compareLines]
    | cons b bs => simp [compareLines]
  | cons a as ih =>
    intro ref f
    cases ref with
    | nil => simp [compareLines]
    | cons b bs =>
      by_cases hab : a = b
      · subst hab
        simp [compareLines, ih]
      · by_cases hn : normalize a = normalize b
        · simp [compareLines, hab, hn, ih]
        · simp [compareLines, hab, hn]

theorem compareOutput_exact_iff (out ref : List String) :
    compareOutput out ref = CompareResult.ExactMatch ↔ out = ref := by
  simp [compareOutput, compareLines_exact_iff]

theorem compareOutput_wrong_iff (out ref : List String) :
    compareOutput out ref = CompareResult.WrongAnswer ↔
      (out.length ≠ ref.length ∨ ∃ p ∈ out.zip ref, normalize p.1 ≠ normalize p.2) := by
  simp [compareOutput, compareLines_wrong_iff]

theorem compareOutput_format_iff (out ref : List String) :
    compareOutput out ref = CompareResult.FormatMismatch ↔
      (out.length = ref.length ∧ (∀ p ∈ out.zip ref, normalize p.1 = normalize p.2) ∧
        out ≠ ref) := by
  simp [compareOutput, compareLines_format_iff]

/-! ### Supervisor lemmas -/

theorem pollLoop_true_of_not_exited (exited : Nat → Bool) :
    ∀ (r k : Nat), (∀ j, k ≤ j → j ≤ k + r → exited j = false) → pollLoop exited r k = true := by
  intro r
  induction r with
  | zero =>
    intro k h
    simp [pollLoop, h k le_rfl (by omega)]
  | succ r ih =>
    intro k h
    have hk : exited k = false := h k le_rfl (by omega)
    simp only [pollLoop, hk, Bool.false_eq_true, if_false]
    exact ih (k + 1) (fun j hj1 hj2 => h j (by omega) (by omega))

theorem superviseTimedOut_of_never_exits (exited : Nat → Bool) (deadline : Nat)
    (h : ∀ j ≤ deadline, exited j = false) :
    superviseTimedOut exited deadline = true :=
  pollLoop_true_of_not_exited exited deadline 0 (fun j _ hj2 => h j (by omega))

theorem terminateGroup_dead (g : GroupState) : terminateGroup g = GroupState.dead := by
  cases g <;> rfl

/-! ### Resolver lemmas -/

theorem findLanguage_eq_find? (extension : String) (language_name : Option String) :
    ∀ ls : List Language,
      findLanguage extension language_name ls = ls.find? (matchesEntry extension language_name) := by
  intro ls
  induction ls with
  | nil => rfl
  | cons l rest ih =>
    simp only [findLanguage, List.find?_cons, matchesEntry]
    cases h : l.extensions.contains extension || nameMatches language_name l <;> simp [h, ih]

theorem get_language_eq_find? (source : String) (language_name : Option String) :
    get_language_from_source source language_name =
      LANGUAGES.find? (matchesEntry (splitext source).2 language_name) :=
  findLanguage_eq_find? _ _ LANGUAGES

/-! ### Claim theorems -/

/-- Claim C1: the comparator walks the captured and reference line sequences
in lockstep and returns WrongAnswer if one sequence is exhausted before the
other (any length difference) or if some corresponding pair still differs
after normalization — in both cases without examining later lines (appending
anything after a normalized-different pair cannot change the result);
otherwise it returns ExactMatch when every pair is byte-identical and
FormatMismatch when all pairs are normalized-identical but at least one is
not byte-identical. -/
theorem C1_comparator_characterization (out ref : List String) :
    (out.length ≠ ref.length → compareOutput out ref = CompareResult.WrongAnswer) ∧
    (compareOutput out ref = CompareResult.ExactMatch ↔ out = ref) ∧
    (compareOutput out ref = CompareResult.FormatMismatch ↔
      (out.length = ref.length ∧ (∀ p ∈ out.zip ref, normalize p.1 = normalize p.2) ∧
        out ≠ ref)) ∧
    (compareOutput out ref = CompareResult.WrongAnswer ↔
      (out.length ≠ ref.length ∨ ∃ p ∈ out.zip ref, normalize p.1 ≠ normalize p.2)) ∧
    (∀ (a b : String) (post0 post1 : List String), out.length = ref.length →
      normalize a ≠ normalize b →
      compareOutput (out ++ a :: post0) (ref ++ b :: post1) = CompareResult.WrongAnswer) := by
  refine ⟨fun h => (compareOutput_wrong_iff out ref).mpr (Or.inl h),
    compareOutput_exact_iff out ref,
    compareOutput_format_iff out ref,
    compareOutput_wrong_iff out ref,
    fun a b post0 post1 hlen hn => ?_⟩
  refine (compareOutput_wrong_iff _ _).mpr (Or.inr ⟨(a, b), ?_, hn⟩)
  rw [List.zip_append hlen]
  exact List.mem_append_right _ (List.mem_cons_self _ _)

/-- Concrete instances of claim C1: exact match, formatting-only mismatch,
content mismatch, and length mismatch. -/
theorem C1_comparator_characterization_witness :
    compareOutput ["3\n", "7\n"] ["3\n", "7\n"] = CompareResult.ExactMatch ∧
    compareOutput ["3  7\n"] ["3 7\n"] = CompareResult.FormatMismatch ∧
    compareOutput ["3\n"] ["4\n"] = CompareResult.WrongAnswer ∧
    compareOutput ["a\n", "b\n"] ["a\n"] = CompareResult.WrongAnswer := by
  refine ⟨(C1_comparator_characterization _ _).2.1.mpr rfl,
    (C1_comparator_characterization _ _).2.2.1.mpr (by decide),
    (C1_comparator_characterization _ _).2.2.2.1.mpr (by decide),
    (C1_comparator_characterization _ _).1 (by decide)⟩

/-- Claim C3: the resolver returns the first registry entry, in declaration
order, whose extension set contains the source's extension or whose name
case-insensitively equals the non-empty explicit name (inclusive-or); every
(extension, language) pair of the registry resolves; it fails exactly when no
entry matches by either criterion, and in particular an extension outside the
registry always fails when no explicit name is given. -/
theorem C3_resolver_first_match :
    (∀ (source : String) (language_name : Option String) (L : Language),
      get_language_from_source source language_name = some L ↔
        (matchesEntry (splitext source).2 language_name L = true ∧
          ∃ pre post, LANGUAGES = pre ++ L :: post ∧
            ∀ l ∈ pre, matchesEntry (splitext source).2 language_name l = false)) ∧
    (∀ L ∈ LANGUAGES, ∀ ext ∈ L.extensions, ∀ source : String,
      (splitext source).2 = ext → get_language_from_source source none = some L) ∧
    (∀ (source : String) (language_name : Option String),
      get_language_from_source source language_name = none ↔
        ∀ l ∈ LANGUAGES, matchesEntry (splitext source).2 language_name l = false) ∧
    (∀ source : String, (∀ l ∈ LANGUAGES, (splitext source).2 ∉ l.extensions) →
      get_language_from_source source none = none) := by
  refine ⟨?_, ?_, ?_, ?_⟩
  · intro source language_name L
    rw [get_language_eq_find?, List.find?_eq_some]
    simp
  · intro L hL ext hext source hsrc
    unfold get_language_from_source
    rw [hsrc]
    fin_cases hL <;> fin_cases hext <;> decide
  · intro source language_name
    rw [get_language_eq_find?, List.find?_eq_none]
    simp
  · intro source h
    rw [get_language_eq_find?, List.find?_eq_none]
    intro l hl
    have := h l hl
    simp [matchesEntry, nameMatches]
    exact this

/-- Concrete instances of claim C3: a registered extension resolves to its
owner, an unregistered extension fails, and an explicit name matches
case-insensitively. -/
theorem C3_resolver_first_match_witness :
    get_language_from_source "sub/prog.cpp" none =
      some ⟨"C++", "g++ -std=gnu++11 -o {executable} {source} -lm", "./{executable}",
        [".cc", ".cpp"]⟩ ∧
    get_language_from_source "prog.xyz" none = none := by
  refine ⟨C3_resolver_first_match.2.1
      ⟨"C++", "g++ -std=gnu++11 -o {executable} {source} -lm", "./{executable}",
        [".cc", ".cpp"]⟩ (by decide) ".cpp" (by decide) "sub/prog.cpp" (by decide),
    C3_resolver_first_match.2.2.2 "prog.xyz" (by decide)⟩

/-- Claim C2 counterexample: with a child that exits with code 42 the
execution-error verdict propagates 42 as the process exit status, which lies
outside `{0, 1}`. -/
theorem C2_counterexample_status_propagates :
    (runCore "prog.c" 30 ⟨0, [], true, fun _ => true, 42, [], []⟩ GroupState.alive).1.status = 42 ∧
    ¬((42 : Int) = 0 ∨ (42 : Int) = 1) :=
  ⟨by decide, by decide⟩

/-- Claim C2 (amended): every verdict's numeric score lies in the closed set
{1..6}; the process exit status is 0 or 1 on every path except the
execution-error path for a child that ran and exited non-zero, which
propagates the child's own exit code verbatim. -/
theorem C2_amended_verdict_ranges (source : String) (timeout : Int) (env : Env) (g : GroupState) :
    (1 ≤ (runCore source timeout env g).1.score ∧ (runCore source timeout env g).1.score ≤ 6) ∧
    ((runCore source timeout env g).1.status = 0 ∨ (runCore source timeout env g).1.status = 1 ∨
      ((runCore source timeout env g).1.result = "Execution Error" ∧
        (runCore source timeout env g).1.status = env.returncode)) := by
  have key :
      (runCore source timeout env g).1 =
          ⟨"Unable to determine language for " ++ source, EXIT_FAILURE, COMPILER_ERROR⟩ ∨
        (runCore source timeout env g).1 = ⟨"Compilation Error", EXIT_FAILURE, COMPILER_ERROR⟩ ∨
        (runCore source timeout env g).1 = ⟨"Execution Error", EXIT_FAILURE, EXECUTION_ERROR⟩ ∨
        (runCore source timeout env g).1 =
          ⟨"Time Limit Exceeded", EXIT_FAILURE, TIMELIMIT_EXCEEDED⟩ ∨
        (runCore source timeout env g).1 = ⟨"Execution Error", env.returncode, EXECUTION_ERROR⟩ ∨
        (runCore source timeout env g).1 = ⟨"Wrong Answer", EXIT_FAILURE, WRONG_ANSWER⟩ ∨
        (runCore source timeout env g).1 =
          ⟨"Output Format Error", EXIT_FAILURE, WRONG_FORMATTING⟩ ∨
        (runCore source timeout env g).1 = ⟨"Success", EXIT_SUCCESS, PROGRAM_SUCCESS⟩ := by
    unfold runCore
    cases hL : get_language_from_source source none with
    | none => exact Or.inl rfl
    | some language =>
      by_cases h1 : env.compileExit ≠ 0
      · exact Or.inr (Or.inl (by simp [h1]))
      · by_cases h2 : env.spawnOk = false
        · exact Or.inr (Or.inr (Or.inl (by simp [h1, h2])))
        · by_cases h3 : superviseTimedOut env.exited (deadlinePolls timeout) = true
          · exact Or.inr (Or.inr (Or.inr (Or.inl (by simp [h1, h2, h3, supervise]))))
          · by_cases h4 : env.returncode ≠ 0
            · exact Or.inr (Or.inr (Or.inr (Or.inr (Or.inl
                (by simp [h1, h2, h3, h4, supervise])))))
            · cases h5 : compareOutput (env.compilerOutput ++ env.programOutput) env.reference
              · exact Or.inr (Or.inr (Or.inr (Or.inr (Or.inr (Or.inr (Or.inr
                  (by simp [h1, h2, h3, h4, h5, supervise])))))))
              · exact Or.inr (Or.inr (Or.inr (Or.inr (Or.inr (Or.inr (Or.inl
                  (by simp [h1, h2, h3, h4, h5, supervise])))))))
              · exact Or.inr (Or.inr (Or.inr (Or.inr (Or.inr (Or.inl
                  (by simp [h1, h2, h3, h4, h5, supervise]))))))
  rcases key with h | h | h | h | h | h | h | h <;> rw [h] <;> dsimp only
  · exact ⟨⟨by decide, by decide⟩, Or.inr (Or.inl rfl)⟩
  · exact ⟨⟨by decide, by decide⟩, Or.inr (Or.inl rfl)⟩
  · exact ⟨⟨by decide, by decide⟩, Or.inr (Or.inl rfl)⟩
  · exact ⟨⟨by decide, by decide⟩, Or.inr (Or.inl rfl)⟩
  · exact ⟨⟨by decide, by decide⟩, Or.inr (Or.inr ⟨rfl, rfl⟩)⟩
  · exact ⟨⟨by decide, by decide⟩, Or.inr (Or.inl rfl)⟩
  · exact ⟨⟨by decide, by decide⟩, Or.inr (Or.inl rfl)⟩
  · exact ⟨⟨by decide, by decide⟩, Or.inl rfl⟩

/-- Claim C4: when the compile command exits non-zero the verdict is
"Compilation Error" with exit status FAILURE and score CompilerError, and no
execute command is ever spawned. -/
theorem C4_compilation_error (source : String) (timeout : Int) (env : Env) (g : GroupState)
    (L : Language) (hres : get_language_from_source source none = some L)
    (hc : env.compileExit ≠ 0) :
    (runCore source timeout env g).1 = ⟨"Compilation Error", EXIT_FAILURE, COMPILER_ERROR⟩ ∧
    (runCore source timeout env g).2.1.executeSpawns = [] := by
  unfold runCore
  rw [hres]
  simp [hc]

/-- Concrete instance of claim C4: a C file whose compilation exits 1. -/
theorem C4_compilation_error_witness :
    (runCore "prog.c" 30 ⟨1, [], true, fun _ => true, 0, [], []⟩ GroupState.alive).1 =
      ⟨"Compilation Error", EXIT_FAILURE, COMPILER_ERROR⟩ ∧
    (runCore "prog.c" 30 ⟨1, [], true, fun _ => true, 0, [], []⟩
        GroupState.alive).2.1.executeSpawns = [] :=
  C4_compilation_error "prog.c" 30 ⟨1, [], true, fun _ => true, 0, [], []⟩ GroupState.alive
    ⟨"C", "gcc -std=gnu99 -o {executable} {source} -lm", "./{executable}", [".c"]⟩
    (by decide) (by decide)

/-- Claim C5: if the child has not exited at any poll up to and including the
deadline poll, the supervisor's `toolong` flag is set and — whatever exit
code the child may later report — the verdict is "Time Limit Exceeded" with
exit status FAILURE and score TimeLimitExceeded. -/
theorem C5_time_limit_exceeded (source : String) (timeout : Int) (env : Env) (g : GroupState)
    (L : Language) (hres : get_language_from_source source none = some L)
    (hc : env.compileExit = 0) (hs : env.spawnOk = true)
    (hnx : ∀ j ≤ deadlinePolls timeout, env.exited j = false) :
    superviseTimedOut env.exited (deadlinePolls timeout) = true ∧
    (runCore source timeout env g).1 =
      ⟨"Time Limit Exceeded", EXIT_FAILURE, TIMELIMIT_EXCEEDED⟩ := by
  have hT := superviseTimedOut_of_never_exits env.exited (deadlinePolls timeout) hnx
  refine ⟨hT, ?_⟩
  unfold runCore
  rw [hres]
  simp [hc, hs, supervise, hT]

/-- Concrete instance of claim C5: a never-terminating Python script under a
1-second timeout whose (never reported) exit code is 5. -/
theorem C5_time_limit_exceeded_witness :
    superviseTimedOut (fun _ => false) (deadlinePolls 1) = true ∧
    (runCore "loop.py" 1 ⟨0, [], true, fun _ => false, 5, [], []⟩ GroupState.alive).1 =
      ⟨"Time Limit Exceeded", EXIT_FAILURE, TIMELIMIT_EXCEEDED⟩ :=
  C5_time_limit_exceeded "loop.py" 1 ⟨0, [], true, fun _ => false, 5, [], []⟩ GroupState.alive
    ⟨"Python", "", "python2.7 {source}", [".py"]⟩ (by decide) rfl rfl (fun _ _ => rfl)

/-- Claim C6: the raw group signal on a dead group raises `OSError`, but the
supervisor's guarded termination step swallows it, leaving the state
unchanged; the step is idempotent; and on every supervised path — natural
exit and timeout alike — the termination signal is sent before returning and
the group is dead afterwards. -/
theorem C6_guaranteed_idempotent_cleanup :
    killpg GroupState.dead = Except.error () ∧
    terminateGroup GroupState.dead = GroupState.dead ∧
    (∀ g, terminateGroup (terminateGroup g) = terminateGroup g) ∧
    (∀ (source : String) (timeout : Int) (env : Env) (g : GroupState) (L : Language),
      get_language_from_source source none = some L → env.compileExit = 0 →
      env.spawnOk = true →
      (runCore source timeout env g).2.1.killSent = true ∧
      (runCore source timeout env g).2.2 = GroupState.dead) := by
  refine ⟨rfl, rfl, fun g => by cases g <;> rfl, ?_⟩
  intro source timeout env g L hres hc hs
  unfold runCore
  rw [hres]
  by_cases ht : superviseTimedOut env.exited (deadlinePolls timeout) = true
  · simp [hc, hs, supervise, ht, terminateGroup_dead]
  · by_cases hrc : env.returncode = 0
    · cases hcmp : compareOutput (env.compilerOutput ++ env.programOutput) env.reference <;>
        simp [hc, hs, supervise, ht, hrc, hcmp, terminateGroup_dead]
    · simp [hc, hs, supervise, ht, hrc, terminateGroup_dead]

/-- Concrete instance of claim C6: terminating an already-terminated group
changes nothing, and a natural-exit run still sends the group signal. -/
theorem C6_guaranteed_idempotent_cleanup_witness :
    terminateGroup (terminateGroup GroupState.alive) = terminateGroup GroupState.alive ∧
    (runCore "a.sh" 30 envBase GroupState.alive).2.1.killSent = true :=
  ⟨C6_guaranteed_idempotent_cleanup.2.2.1 GroupState.alive,
    (C6_guaranteed_idempotent_cleanup.2.2.2 "a.sh" 30 envBase GroupState.alive
      ⟨"Bash", "", "bash {source}", [".sh"]⟩ (by decide) rfl rfl).1⟩

/-- Claim C7 counterexample: for the interpreted language Bash (empty compile
template) the compile phase is not skipped — `subprocess.check_call` is still
invoked once, with the empty command string, so a compile process (a shell
running the empty command) is spawned. -/
theorem C7_counterexample_compile_spawned :
    (runCore "prog.sh" 30 envBase GroupState.alive).2.1.compileSpawns = [""] ∧
    ([""] : List String) ≠ [] :=
  ⟨by decide, by decide⟩

/-- Claim C7 (amended): for a language whose compile template is empty the
compile phase hands the shell the empty command (which performs no
compilation and exits 0) rather than being skipped, and the run then proceeds
to the execute phase, whose command is the execute template instantiated with
the source file itself. -/
theorem C7_amended_empty_compile (source : String) (timeout : Int) (env : Env) (g : GroupState)
    (L : Language) (hres : get_language_from_source source none = some L)
    (hempty : L.compile = "") (hc : env.compileExit = 0) :
    (runCore source timeout env g).2.1.compileSpawns = [""] ∧
    (runCore source timeout env g).2.1.executeSpawns =
      [formatCmd L.execute source (splitext (basename source)).1] := by
  unfold runCore
  rw [hres]
  have hfc : formatCmd L.compile source (splitext (basename source)).1 = "" := by
    rw [hempty]; rfl
  by_cases hsp : env.spawnOk = false
  · simp [hc, hsp, hfc]
  · by_cases ht : superviseTimedOut env.exited (deadlinePolls timeout) = true
    · simp [hc, hsp, ht, supervise, hfc]
    · by_cases hrc : env.returncode = 0
      · cases hcmp : compareOutput (env.compilerOutput ++ env.programOutput) env.reference <;>
          simp [hc, hsp, ht, hrc, hcmp, supervise, hfc]
      · simp [hc, hsp, ht, hrc, supervise, hfc]

/-- Concrete instance of amended claim C7: a Bash run spawns the empty
compile command and then executes `bash prog.sh`. -/
theorem C7_amended_empty_compile_witness :
    (runCore "prog.sh" 30 envBase GroupState.alive).2.1.compileSpawns = [""] ∧
    (runCore "prog.sh" 30 envBase GroupState.alive).2.1.executeSpawns =
      [formatCmd "bash {source}" "prog.sh" (splitext (basename "prog.sh")).1] :=
  C7_amended_empty_compile "prog.sh" 30 envBase GroupState.alive
    ⟨"Bash", "", "bash {source}", [".sh"]⟩ (by decide) rfl rfl

/-- Claim C8: rendering `return_result`'s `sys.exit` as an early exit, every
invocation of the judging core terminates by emitting exactly one verdict —
the one reached first — and there is no fall-through path that would continue
past a classification or emit a second verdict. -/
theorem C8_exactly_one_verdict (source : String) (timeout : Int) (env : Env) (g : GroupState) :
    runCoreE source timeout env = Except.error (runCore source timeout env g).1 := by
  unfold runCore runCoreE
  cases hL : get_language_from_source source none
  · rfl
  · by_cases h1 : env.compileExit ≠ 0
    · simp [h1]
    · by_cases h2 : env.spawnOk = false
      · simp [h1, h2]
      · by_cases h3 : superviseTimedOut env.exited (deadlinePolls timeout) = true
        · simp [h1, h2, h3, supervise]
        · by_cases h4 : env.returncode ≠ 0
          · simp [h1, h2, h3, h4, supervise]
          · cases h5 : compareOutput (env.compilerOutput ++ env.programOutput) env.reference <;>
              simp [h1, h2, h3, h4, h5, supervise]

/-- Claim C9 counterexample: an invocation with the unknown option `-x` does
not print the usage text; the `GetoptError` handler only logs, after which
the `for option, value in options` line raises an uncaught `NameError`. -/
theorem C9_counterexample_unknown_option :
    run ["run", "-x", "prog.c", "in", "out"] envBase GroupState.alive =
      (MainOutcome.crash "NameError", false) ∧
    ∀ code, MainOutcome.crash "NameError" ≠ MainOutcome.usageExit code :=
  ⟨by decide, fun _ h => nomatch h⟩

/-- Claim C9 (amended): malformed invocations fail before the Resolving
phase (the resolver is never invoked), but only the zero-positional-argument
case prints the usage text and exits with status 1; an unknown option aborts
with an uncaught `NameError`, and one or two positional arguments abort with
an uncaught `IndexError`. -/
theorem C9_amended_malformed_arguments (argv : List String) (env : Env) (g : GroupState) :
    (∀ e, getopt (argv.drop 1) "t:v" = Except.error e →
      run argv env g = (MainOutcome.crash "NameError", false)) ∧
    (∀ options arguments timeout,
      getopt (argv.drop 1) "t:v" = Except.ok (options, arguments) →
      applyOptions options 30 = OptionsResult.ok timeout →
      ((arguments = [] → run argv env g = (MainOutcome.usageExit 1, false)) ∧
        (arguments.length = 1 ∨ arguments.length = 2 →
          run argv env g = (MainOutcome.crash "IndexError", false)))) := by
  constructor
  · intro e he
    unfold run
    rw [he]
  · intro options arguments timeout hg ha
    unfold run
    simp only [hg, ha]
    constructor
    · intro h
      subst h
      rfl
    · intro h
      match arguments, h with
      | [_], _ => rfl
      | [_, _], _ => rfl

/-- Concrete instances of amended claim C9: unknown option, no positional
arguments, and a single positional argument. -/
theorem C9_amended_malformed_arguments_witness :
    run ["run", "-x", "a.c", "b", "c"] envBase GroupState.alive =
      (MainOutcome.crash "NameError", false) ∧
    run ["run"] envBase GroupState.alive = (MainOutcome.usageExit 1, false) ∧
    run ["run", "a.c"] envBase GroupState.alive = (MainOutcome.crash "IndexError", false) :=
  ⟨(C9_amended_malformed_arguments ["run", "-x", "a.c", "b", "c"] envBase
      GroupState.alive).1 "option not recognized" rfl,
    ((C9_amended_malformed_arguments ["run"] envBase GroupState.alive).2
      [] [] 30 rfl rfl).1 rfl,
    ((C9_amended_malformed_arguments ["run", "a.c"] envBase GroupState.alive).2
      [] ["a.c"] 30 rfl rfl).2 (Or.inl rfl)⟩

/-- Claim C10: on the comparison path the comparator reads the whole capture
file — compiler diagnostics (stdout and stderr merged) followed by program
output — so the run succeeds exactly when that concatenation equals the
reference, and any non-empty compiler output forces "Wrong Answer" even when
the program's own output alone equals the reference. -/
theorem C10_capture_includes_compiler_output (source : String) (timeout : Int) (env : Env)
    (g : GroupState) (L : Language) (hres : get_language_from_source source none = some L)
    (hc : env.compileExit = 0) (hs : env.spawnOk = true)
    (ht : superviseTimedOut env.exited (deadlinePolls timeout) = false)
    (hrc : env.returncode = 0) :
    ((runCore source timeout env g).1.result = "Success" ↔
      env.compilerOutput ++ env.programOutput = env.reference) ∧
    (env.compilerOutput ≠ [] → env.programOutput = env.reference →
      (runCore source timeout env g).1 = ⟨"Wrong Answer", EXIT_FAILURE, WRONG_ANSWER⟩) := by
  have hred : ∀ r : CompareResult,
      compareOutput (env.compilerOutput ++ env.programOutput) env.reference = r →
      (runCore source timeout env g).1 = (match r with
        | CompareResult.WrongAnswer => ⟨"Wrong Answer", EXIT_FAILURE, WRONG_ANSWER⟩
        | CompareResult.FormatMismatch =>
          ⟨"Output Format Error", EXIT_FAILURE, WRONG_FORMATTING⟩
        | CompareResult.ExactMatch => ⟨"Success", EXIT_SUCCESS, PROGRAM_SUCCESS⟩) := by
    intro r hr
    unfold runCore
    rw [hres]
    cases r <;> simp [hc, hs, supervise, ht, hrc, hr]
  have hWA : env.compilerOutput ≠ [] → env.programOutput = env.reference →
      compareOutput (env.compilerOutput ++ env.programOutput) env.reference =
        CompareResult.WrongAnswer := by
    intro hcne hpe
    refine (compareOutput_wrong_iff _ _).mpr (Or.inl ?_)
    rw [hpe, List.length_append]
    have := List.length_pos.mpr hcne
    omega
  cases hcmp : compareOutput (env.compilerOutput ++ env.programOutput) env.reference with
  | ExactMatch =>
    refine ⟨?_, ?_⟩
    · rw [hred _ hcmp]
      exact iff_of_true rfl ((compareOutput_exact_iff _ _).mp hcmp)
    · intro hcne hpe
      have h2 := hWA hcne hpe
      rw [hcmp] at h2
      exact absurd h2 (by decide)
  | FormatMismatch =>
    refine ⟨?_, ?_⟩
    · rw [hred _ hcmp]
      refine iff_of_false (by decide) ?_
      intro heq
      have h2 := (compareOutput_exact_iff _ _).mpr heq
      rw [hcmp] at h2
      exact absurd h2 (by decide)
    · intro hcne hpe
      have h2 := hWA hcne hpe
      rw [hcmp] at h2
      exact absurd h2 (by decide)
  | WrongAnswer =>
    refine ⟨?_, ?_⟩
    · rw [hred _ hcmp]
      refine iff_of_false (by decide) ?_
      intro heq
      have h2 := (compareOutput_exact_iff _ _).mpr heq
      rw [hcmp] at h2
      exact absurd h2 (by decide)
    · intro _ _
      exact hred _ hcmp

/-- Concrete instance of claim C10: one line of compiler output ahead of a
program output that equals the reference still yields "Wrong Answer". -/
theorem C10_capture_includes_compiler_output_witness :
    (runCore "prog.c" 30 ⟨0, ["warning: x\n"], true, fun _ => true, 0, ["ok\n"], ["ok\n"]⟩
        GroupState.alive).1 = ⟨"Wrong Answer", EXIT_FAILURE, WRONG_ANSWER⟩ :=
  (C10_capture_includes_compiler_output "prog.c" 30
    ⟨0, ["warning: x\n"], true, fun _ => true, 0, ["ok\n"], ["ok\n"]⟩ GroupState.alive
    ⟨"C", "gcc -std=gnu99 -o {executable} {source} -lm", "./{executable}", [".c"]⟩
    (by decide) rfl rfl rfl rfl).2 (by decide) rfl

end Dredd
